import Mathlib

/-!
Verification of the MotionCam capture core: a shallow embedding of
`CameraSession.cpp` (capture session controller, HDR orchestration) and
`RawBufferManager.cpp` (raw buffer pool), with theorems about the
properties claimed in the specification.
-/

namespace MotionCam

/-! ## Data model (RawImageMetadata / RawImageBuffer, RawBufferManager state) -/

/-- Raw-type tag carried in per-frame metadata (`RawType` in the source). -/
inductive RawType where
  | ZSL
  | HDR
deriving DecidableEq, Repr, Inhabited

/-- The parts of the per-frame metadata used by the buffer manager:
the monotonic timestamp (`timestampNs`) and the raw-type tag (`rawType`). -/
structure RawImageMetadata where
  timestampNs : Int
  rawType : RawType
deriving DecidableEq, Repr, Inhabited

/-- A raw frame buffer.  Buffers are held through `shared_ptr`s in the source;
`id` stands for the pointer identity that distinguishes two buffers that might
carry identical metadata. -/
structure RawImageBuffer where
  id : Nat
  metadata : RawImageMetadata
deriving DecidableEq, Repr, Inhabited

/-- State of `RawBufferManager`: the lock-free queue `mUnusedBuffers` (the
*free* partition) and the vector `mReadyBuffers` (the *ready* partition, in
arrival order).  Buffers loaned out to consumers appear in neither list. -/
structure PoolState where
  unused : List RawImageBuffer
  ready : List RawImageBuffer
deriving DecidableEq, Repr, Inhabited

/-! ## RawBufferManager operations -/

/-- `RawBufferManager::dequeueUnusedBuffer`: take from `mUnusedBuffers` first;
if that queue is empty, steal the oldest ready buffer (`mReadyBuffers.front()`);
otherwise return null. -/
def dequeueUnusedBuffer (s : PoolState) : Option RawImageBuffer × PoolState :=
  match s.unused with
  | b :: rest => (some b, { s with unused := rest })
  | [] =>
    match s.ready with
    | b :: rest => (some b, { s with ready := rest })
    | [] => (none, s)

/-- `RawBufferManager::enqueueReadyBuffer`: push a buffer at the back of
`mReadyBuffers`. -/
def enqueueReadyBuffer (s : PoolState) (b : RawImageBuffer) : PoolState :=
  { s with ready := s.ready ++ [b] }

/-- `RawBufferManager::discardBuffer`: return a buffer to `mUnusedBuffers`. -/
def discardBuffer (s : PoolState) (b : RawImageBuffer) : PoolState :=
  { s with unused := s.unused ++ [b] }

/-- `RawBufferManager::discardBuffers`: bulk-enqueue buffers to
`mUnusedBuffers`. -/
def discardBuffers (s : PoolState) (bs : List RawImageBuffer) : PoolState :=
  { s with unused := s.unused ++ bs }

/-- `RawBufferManager::returnBuffers` (run by `LockedBuffers::~LockedBuffers`):
move the handle's buffers to the back of `mReadyBuffers`. -/
def returnBuffers (s : PoolState) (bs : List RawImageBuffer) : PoolState :=
  { s with ready := s.ready ++ bs }

/-- Test used by `numHdrBuffers` and `saveHdr`: the buffer's metadata raw type
is HDR. -/
def isHdrBuffer (b : RawImageBuffer) : Bool :=
  b.metadata.rawType = RawType.HDR

/-- `RawBufferManager::numHdrBuffers`: count of ready buffers whose metadata
raw type is HDR. -/
def numHdrBuffers (s : PoolState) : Nat :=
  (s.ready.filter isHdrBuffer).length

/-- `RawBufferManager::consumeLatestBuffer`: remove and return the newest ready
buffer (the back of `mReadyBuffers`); an empty handle when there is none. -/
def consumeLatestBuffer (s : PoolState) : List RawImageBuffer × PoolState :=
  if s.ready.isEmpty then ([], s)
  else (s.ready.drop (s.ready.length - 1), { s with ready := s.ready.dropLast })

/-- Helper mirroring `std::find_if` followed by `erase` in
`RawBufferManager::consumeBuffer`: remove the first buffer with the given
timestamp, returning it together with the remaining list. -/
def removeFirstByTimestamp (timestampNs : Int) :
    List RawImageBuffer → Option RawImageBuffer × List RawImageBuffer
  | [] => (none, [])
  | b :: rest =>
    if b.metadata.timestampNs = timestampNs then (some b, rest)
    else
      let r := removeFirstByTimestamp timestampNs rest
      (r.1, b :: r.2)

/-- `RawBufferManager::consumeBuffer(timestampNs)`: remove the first ready
buffer whose metadata timestamp equals the argument; empty handle if none. -/
def consumeBuffer (s : PoolState) (timestampNs : Int) : List RawImageBuffer × PoolState :=
  match removeFirstByTimestamp timestampNs s.ready with
  | (some b, rest) => ([b], { s with ready := rest })
  | (none, _) => ([], s)

/-- `RawBufferManager::consumeAllBuffers`: drain the whole ready partition into
a `LockedBuffers` handle. -/
def consumeAllBuffers (s : PoolState) : List RawImageBuffer × PoolState :=
  (s.ready, { s with ready := [] })

/-- `RawBufferManager::saveHdr`: extract every HDR-tagged ready buffer (they go
into the pending container or are serialized to disk) and finally enqueue those
buffers back onto `mUnusedBuffers`.  When no HDR buffer is ready the function
returns early with the same net effect. -/
def saveHdr (s : PoolState) : PoolState :=
  let hdrBuffers := s.ready.filter isHdrBuffer
  { unused := s.unused ++ hdrBuffers
    ready := s.ready.filter (fun b => !(isHdrBuffer b)) }

/-! ## RawBufferManager::save (snapshot selection) -/

/-- `std::numeric_limits<long>::max()` used as the sentinel difference. -/
def int64Max : Int := 9223372036854775807

/-- Timestamp of the buffer at index `i` of `allBuffers` (reads through the
same vector indexing the source uses; indices are only read at valid
positions on non-UB executions). -/
def tsAtIdx (all : List RawImageBuffer) (i : Int) : Int :=
  (all.getD i.toNat default).metadata.timestampNs

/-- The reference index computed by `RawBufferManager::save`: the first ready
buffer whose timestamp equals `referenceTimestamp`, defaulting to the last
index when no buffer matches. -/
def findReferenceIdx (all : List RawImageBuffer) (referenceTimestamp : Int) : Nat :=
  match all.findIdx? (fun b => b.metadata.timestampNs == referenceTimestamp) with
  | some i => i
  | none => all.length - 1

/-- `leftDifference` in the selection loop of `RawBufferManager::save`:
distance from the reference timestamp when `leftIdx >= 0`, else the
`int64Max` sentinel. -/
def saveLeftDifference (all : List RawImageBuffer) (referenceIdx : Nat) (leftIdx : Int) : Int :=
  if 0 ≤ leftIdx then
    ((tsAtIdx all leftIdx - tsAtIdx all (referenceIdx : Int)).natAbs : Int)
  else int64Max

/-- `rightDifference` in the selection loop of `RawBufferManager::save`.  The
source guards it with `rightIdx < mReadyBuffers.size()`, but `mReadyBuffers`
was moved out and cleared just before the loop, so the bound is `0` and the
right-hand difference always stays at the `int64Max` sentinel. -/
def saveRightDifference (all : List RawImageBuffer) (referenceIdx : Nat) (rightIdx : Int) : Int :=
  if rightIdx < (0 : Int) then
    ((tsAtIdx all rightIdx - tsAtIdx all (referenceIdx : Int)).natAbs : Int)
  else int64Max

/-- The neighbour-selection loop of `RawBufferManager::save`, with
`numSaveBuffers` as fuel.  Note the quirk of the source: the loop guard tests
`leftIdx > 0` (not `>= 0`). -/
def saveSelectLoop (all : List RawImageBuffer) (referenceIdx : Nat) :
    Nat → Int → Int → List RawImageBuffer
  | 0, _, _ => []
  | n + 1, leftIdx, rightIdx =>
    if leftIdx > 0 ∨ rightIdx < (all.length : Int) then
      if saveLeftDifference all referenceIdx leftIdx <
          saveRightDifference all referenceIdx rightIdx then
        all.getD leftIdx.toNat default :: saveSelectLoop all referenceIdx n (leftIdx - 1) rightIdx
      else
        all.getD rightIdx.toNat default :: saveSelectLoop all referenceIdx n leftIdx (rightIdx + 1)
    else []

/-- The set of buffers `RawBufferManager::save` packages into the container:
the matching reference buffer (only when a timestamp match was found), followed
by the buffers added by the neighbour-selection loop. -/
def savePackagedBuffers (all : List RawImageBuffer) (referenceTimestamp : Int)
    (numSaveBuffers : Nat) : List RawImageBuffer :=
  let referenceIdx := findReferenceIdx all referenceTimestamp
  let initial : List RawImageBuffer :=
    match all.findIdx? (fun b => b.metadata.timestampNs == referenceTimestamp) with
    | some i => [all.getD i default]
    | none => []
  initial ++
    saveSelectLoop all referenceIdx numSaveBuffers
      ((referenceIdx : Int) - 1) ((referenceIdx : Int) + 1)

/-- `RawBufferManager::save`: empty ready partition returns immediately;
otherwise `mReadyBuffers` is moved into `allBuffers`, a subset is selected and
packaged, and at the end `mReadyBuffers = allBuffers` restores the full ready
partition, so the pool state is unchanged.  The first component is the
packaged selection. -/
def save (s : PoolState) (referenceTimestamp : Int) (numSaveBuffers : Nat) :
    List RawImageBuffer × PoolState :=
  if s.ready.isEmpty then ([], s)
  else (savePackagedBuffers s.ready referenceTimestamp numSaveBuffers, s)

/-! ## Pool partition invariant -/

/-- The buffers currently held by the pool itself: the free partition followed
by the ready partition. -/
def PoolState.members (s : PoolState) : List RawImageBuffer := s.unused ++ s.ready

/-- Whether a buffer is currently held by the pool (free or ready). -/
def inPoolPred (s : PoolState) (b : RawImageBuffer) : Bool := decide (b ∈ s.members)

/-- The loaned partition relative to the universe `U` of buffers registered
with `addBuffer`: registered buffers held by neither the free nor the ready
partition (they sit in a consumer's `LockedBuffers` handle or in the
producer's hands). -/
def loanedBuffers (U : List RawImageBuffer) (s : PoolState) : List RawImageBuffer :=
  U.filter (fun b => !(inPoolPred s b))

/-- Well-formedness of a pool state: the registered buffers are distinct, the
buffers held by the pool are distinct, and every held buffer is registered. -/
def PoolInv (U : List RawImageBuffer) (s : PoolState) : Prop :=
  U.Nodup ∧ s.members.Nodup ∧ ∀ b ∈ s.members, b ∈ U

/-- Number of partitions (counted with multiplicity) in which a buffer
appears. -/
def bufferPartitionCount (U : List RawImageBuffer) (s : PoolState) (b : RawImageBuffer) : Nat :=
  s.unused.count b + s.ready.count b + (loanedBuffers U s).count b

/-- Total number of buffer slots across the three partitions. -/
def totalBufferCount (U : List RawImageBuffer) (s : PoolState) : Nat :=
  s.unused.length + s.ready.length + (loanedBuffers U s).length

/-- The pool operations claimed to preserve the partition structure. -/
inductive PoolOp where
  | dequeueUnused
  | enqueueReady (b : RawImageBuffer)
  | discard (b : RawImageBuffer)
  | discardMany (bs : List RawImageBuffer)
  | lockedBuffersRelease (bs : List RawImageBuffer)
  | consumeLatest
  | consume (timestampNs : Int)
  | consumeAll
  | saveHdrOp
  | saveOp (referenceTimestamp : Int) (numSaveBuffers : Nat)

/-- Effect of a pool operation on the pool state (results returned to the
caller become loaned). -/
def applyPoolOp (op : PoolOp) (s : PoolState) : PoolState :=
  match op with
  | .dequeueUnused => (dequeueUnusedBuffer s).2
  | .enqueueReady b => enqueueReadyBuffer s b
  | .discard b => discardBuffer s b
  | .discardMany bs => discardBuffers s bs
  | .lockedBuffersRelease bs => returnBuffers s bs
  | .consumeLatest => (consumeLatestBuffer s).2
  | .consume ts => (consumeBuffer s ts).2
  | .consumeAll => (consumeAllBuffers s).2
  | .saveHdrOp => saveHdr s
  | .saveOp ts n => (save s ts n).2

/-- Calling discipline for operations that hand buffers back to the pool: the
buffers handed over must be registered, currently loaned, and distinct.  The
other operations have no precondition. -/
def poolOpValid (U : List RawImageBuffer) (s : PoolState) : PoolOp → Prop
  | .enqueueReady b => b ∈ U ∧ b ∉ s.members
  | .discard b => b ∈ U ∧ b ∉ s.members
  | .discardMany bs => bs.Nodup ∧ ∀ b ∈ bs, b ∈ U ∧ b ∉ s.members
  | .lockedBuffersRelease bs => bs.Nodup ∧ ∀ b ∈ bs, b ∈ U ∧ b ∉ s.members
  | _ => True

theorem poolInv_of_sublist {U : List RawImageBuffer} {s t : PoolState} (h : PoolInv U s)
    (hsub : List.Sublist t.members s.members) : PoolInv U t :=
  ⟨h.1, h.2.1.sublist hsub, fun b hb => h.2.2 b (hsub.subset hb)⟩

theorem poolInv_of_perm {U : List RawImageBuffer} {s t : PoolState} (h : PoolInv U s)
    (hperm : List.Perm t.members s.members) : PoolInv U t :=
  ⟨h.1, hperm.nodup_iff.mpr h.2.1, fun b hb => h.2.2 b (hperm.subset hb)⟩

theorem poolInv_of_perm_append {U : List RawImageBuffer} {s t : PoolState} (h : PoolInv U s)
    (bs : List RawImageBuffer) (hperm : List.Perm t.members (s.members ++ bs))
    (hbs : bs.Nodup) (hdis : ∀ b ∈ bs, b ∈ U ∧ b ∉ s.members) : PoolInv U t := by
  refine ⟨h.1, hperm.nodup_iff.mpr ?_, fun b hb => ?_⟩
  · exact List.nodup_append.mpr ⟨h.2.1, hbs, fun a ha hmem => (hdis a hmem).2 ha⟩
  · rcases List.mem_append.mp (hperm.subset hb) with hm | hm
    · exact h.2.2 b hm
    · exact (hdis b hm).1

theorem removeFirstByTimestamp_sublist (ts : Int) :
    ∀ l : List RawImageBuffer, List.Sublist (removeFirstByTimestamp ts l).2 l := by
  intro l
  induction l with
  | nil => simp [removeFirstByTimestamp]
  | cons b rest ih =>
    by_cases hb : b.metadata.timestampNs = ts
    · simp [removeFirstByTimestamp, hb]
    · simpa [removeFirstByTimestamp, hb] using ih.cons₂ b

theorem consumeBuffer_snd_sublist (s : PoolState) (ts : Int) :
    List.Sublist (consumeBuffer s ts).2.members s.members := by
  have hsub := removeFirstByTimestamp_sublist ts s.ready
  unfold consumeBuffer
  rcases hrem : removeFirstByTimestamp ts s.ready with ⟨ob, rest⟩
  rw [hrem] at hsub
  cases ob with
  | some b => exact hsub.append_left s.unused
  | none => exact List.Sublist.refl _

theorem save_snd_eq (s : PoolState) (ts : Int) (n : Nat) : (save s ts n).2 = s := by
  unfold save
  split <;> rfl

/-- Every pool operation maps a well-formed pool state to a well-formed pool
state, provided buffers handed back to the pool were loaned out. -/
theorem poolInv_applyPoolOp {U : List RawImageBuffer} {s : PoolState} {op : PoolOp}
    (hinv : PoolInv U s) (hvalid : poolOpValid U s op) :
    PoolInv U (applyPoolOp op s) := by
  cases op with
  | dequeueUnused =>
    show PoolInv U (dequeueUnusedBuffer s).2
    rcases s with ⟨unused, ready⟩
    cases unused with
    | cons b rest =>
      exact poolInv_of_sublist hinv ((List.sublist_cons_self b rest).append_right ready)
    | nil =>
      cases ready with
      | nil => exact hinv
      | cons b rest =>
        exact poolInv_of_sublist hinv ((List.sublist_cons_self b rest).append_left [])
  | enqueueReady b =>
    refine poolInv_of_perm_append hinv [b] ?_ (List.nodup_singleton b)
      (by intro x hx; rcases List.mem_singleton.mp hx with rfl; exact hvalid)
    show List.Perm (s.unused ++ (s.ready ++ [b])) ((s.unused ++ s.ready) ++ [b])
    rw [List.append_assoc]
  | discard b =>
    refine poolInv_of_perm_append hinv [b] ?_ (List.nodup_singleton b)
      (by intro x hx; rcases List.mem_singleton.mp hx with rfl; exact hvalid)
    show List.Perm ((s.unused ++ [b]) ++ s.ready) ((s.unused ++ s.ready) ++ [b])
    rw [List.append_assoc, List.append_assoc]
    exact (@List.perm_append_comm _ [b] s.ready).append_left s.unused
  | discardMany bs =>
    refine poolInv_of_perm_append hinv bs ?_ hvalid.1 hvalid.2
    show List.Perm ((s.unused ++ bs) ++ s.ready) ((s.unused ++ s.ready) ++ bs)
    rw [List.append_assoc, List.append_assoc]
    exact (@List.perm_append_comm _ bs s.ready).append_left s.unused
  | lockedBuffersRelease bs =>
    refine poolInv_of_perm_append hinv bs ?_ hvalid.1 hvalid.2
    show List.Perm (s.unused ++ (s.ready ++ bs)) ((s.unused ++ s.ready) ++ bs)
    rw [List.append_assoc]
  | consumeLatest =>
    show PoolInv U (consumeLatestBuffer s).2
    unfold consumeLatestBuffer
    split
    · exact hinv
    · exact poolInv_of_sublist hinv ((List.dropLast_sublist s.ready).append_left s.unused)
  | consume ts =>
    exact poolInv_of_sublist hinv (consumeBuffer_snd_sublist s ts)
  | consumeAll =>
    show PoolInv U (consumeAllBuffers s).2
    exact poolInv_of_sublist hinv ((List.nil_sublist s.ready).append_left s.unused)
  | saveHdrOp =>
    refine poolInv_of_perm hinv ?_
    show List.Perm
      ((s.unused ++ s.ready.filter isHdrBuffer) ++ s.ready.filter (fun b => !(isHdrBuffer b)))
      (s.unused ++ s.ready)
    rw [List.append_assoc]
    exact (List.filter_append_perm isHdrBuffer s.ready).append_left s.unused
  | saveOp ts n =>
    show PoolInv U (save s ts n).2
    rw [save_snd_eq]
    exact hinv

theorem bufferPartitionCount_eq_one {U : List RawImageBuffer} {s : PoolState}
    (h : PoolInv U s) {b : RawImageBuffer} (hb : b ∈ U) :
    bufferPartitionCount U s b = 1 := by
  obtain ⟨hU, hm, hsub⟩ := h
  have hcount : s.members.count b = s.unused.count b + s.ready.count b :=
    List.count_append b s.unused s.ready
  by_cases hmem : b ∈ s.members
  · have h1 : s.members.count b = 1 := List.count_eq_one_of_mem hm hmem
    have h0 : (loanedBuffers U s).count b = 0 := by
      apply List.count_eq_zero_of_not_mem
      intro hin
      have hflt := List.mem_filter.mp hin
      simp [inPoolPred, hmem] at hflt
    unfold bufferPartitionCount
    omega
  · have h1 : s.members.count b = 0 := List.count_eq_zero_of_not_mem hmem
    have h0 : (loanedBuffers U s).count b = 1 := by
      apply List.count_eq_one_of_mem (hU.filter _)
      exact List.mem_filter.mpr ⟨hb, by simp [inPoolPred, hmem]⟩
    unfold bufferPartitionCount
    omega

theorem members_perm_filter {U : List RawImageBuffer} {s : PoolState} (h : PoolInv U s) :
    List.Perm (U.filter (inPoolPred s)) s.members := by
  obtain ⟨hU, hm, hsub⟩ := h
  apply List.perm_iff_count.mpr
  intro a
  by_cases hmem : a ∈ s.members
  · rw [List.count_eq_one_of_mem hm hmem,
      List.count_eq_one_of_mem (hU.filter _)
        (List.mem_filter.mpr ⟨hsub a hmem, by simp [inPoolPred, hmem]⟩)]
  · rw [List.count_eq_zero_of_not_mem hmem, List.count_eq_zero_of_not_mem]
    intro hin
    have hflt := List.mem_filter.mp hin
    simp [inPoolPred, hmem] at hflt

theorem totalBufferCount_eq {U : List RawImageBuffer} {s : PoolState} (h : PoolInv U s) :
    totalBufferCount U s = U.length := by
  have hperm := (List.filter_append_perm (inPoolPred s) U).length_eq
  rw [List.length_append] at hperm
  have hmem := (members_perm_filter h).length_eq
  unfold PoolState.members at hmem
  rw [List.length_append] at hmem
  unfold totalBufferCount loanedBuffers
  omega

/-- C5: every buffer registered with the pool sits in exactly one of the free,
ready, or loaned partitions, and every pool operation — including `save`
(which removes the ready partition and restores it after packaging) and the
release of a `LockedBuffers` handle (which returns its contents to ready) —
preserves the one-partition-per-buffer invariant and the total buffer
count. -/
theorem pool_partition_invariant (U : List RawImageBuffer) (s : PoolState) (op : PoolOp)
    (hinv : PoolInv U s) (hvalid : poolOpValid U s op) :
    (∀ b ∈ U, bufferPartitionCount U s b = 1) ∧
    PoolInv U (applyPoolOp op s) ∧
    (∀ b ∈ U, bufferPartitionCount U (applyPoolOp op s) b = 1) ∧
    totalBufferCount U s = U.length ∧
    totalBufferCount U (applyPoolOp op s) = U.length := by
  have hinv2 := poolInv_applyPoolOp hinv hvalid
  exact ⟨fun b hb => bufferPartitionCount_eq_one hinv hb, hinv2,
    fun b hb => bufferPartitionCount_eq_one hinv2 hb,
    totalBufferCount_eq hinv, totalBufferCount_eq hinv2⟩

/-- C5 witness data: two registered buffers, one free and one ready. -/
def demoPoolUniverse : List RawImageBuffer :=
  [⟨1, ⟨100, RawType.ZSL⟩⟩, ⟨2, ⟨200, RawType.ZSL⟩⟩]

/-- C5 witness data: pool state holding both demo buffers. -/
def demoPoolState : PoolState :=
  { unused := [⟨1, ⟨100, RawType.ZSL⟩⟩], ready := [⟨2, ⟨200, RawType.ZSL⟩⟩] }

theorem pool_partition_invariant_witness :
    (PoolInv demoPoolUniverse demoPoolState ∧
      poolOpValid demoPoolUniverse demoPoolState PoolOp.consumeAll) ∧
    ((∀ b ∈ demoPoolUniverse, bufferPartitionCount demoPoolUniverse demoPoolState b = 1) ∧
      PoolInv demoPoolUniverse (applyPoolOp PoolOp.consumeAll demoPoolState) ∧
      (∀ b ∈ demoPoolUniverse,
        bufferPartitionCount demoPoolUniverse (applyPoolOp PoolOp.consumeAll demoPoolState) b = 1) ∧
      totalBufferCount demoPoolUniverse demoPoolState = demoPoolUniverse.length ∧
      totalBufferCount demoPoolUniverse (applyPoolOp PoolOp.consumeAll demoPoolState) =
        demoPoolUniverse.length) :=
  ⟨⟨⟨by decide, by decide, by decide⟩, trivial⟩,
    pool_partition_invariant demoPoolUniverse demoPoolState PoolOp.consumeAll
      ⟨by decide, by decide, by decide⟩ trivial⟩

/-! ## Snapshot selection: fallback reference and neighbour choice -/

theorem saveSelectLoop_fallback_subset (all : List RawImageBuffer)
    (hbound : ∀ b ∈ all, ∀ c ∈ all,
      ((b.metadata.timestampNs - c.metadata.timestampNs).natAbs : Int) < int64Max) :
    ∀ (fuel : Nat) (leftIdx : Int), leftIdx ≤ (all.length : Int) - 2 →
      ∀ b ∈ saveSelectLoop all (all.length - 1) fuel leftIdx (all.length : Int),
        b ∈ all.dropLast := by
  intro fuel
  induction fuel with
  | zero =>
    intro leftIdx _ b hb
    simp [saveSelectLoop] at hb
  | succ n ih =>
    intro leftIdx hle b hb
    rw [saveSelectLoop] at hb
    by_cases hpos : leftIdx > 0
    · rw [if_pos (Or.inl hpos)] at hb
      have hL3 : 3 ≤ all.length := by omega
      have hlt : leftIdx.toNat < all.length := by omega
      have hrefn : all.length - 1 < all.length := by omega
      have hleft_mem : all.getD leftIdx.toNat default ∈ all := by
        rw [List.getD_eq_getElem all default hlt]
        exact List.getElem_mem hlt
      have href_mem : all.getD (all.length - 1) default ∈ all := by
        rw [List.getD_eq_getElem all default hrefn]
        exact List.getElem_mem hrefn
      have hld : saveLeftDifference all (all.length - 1) leftIdx <
          saveRightDifference all (all.length - 1) (all.length : Int) := by
        rw [saveLeftDifference, if_pos (le_of_lt hpos), saveRightDifference,
          if_neg (by omega : ¬ (all.length : Int) < 0)]
        simpa [tsAtIdx] using hbound _ hleft_mem _ href_mem
      rw [if_pos hld] at hb
      rcases List.mem_cons.mp hb with hb1 | hb2
      · have hlt2 : leftIdx.toNat < all.dropLast.length := by
          rw [List.length_dropLast]
          omega
        rw [hb1, List.getD_eq_getElem all default hlt,
          ← List.getElem_dropLast all leftIdx.toNat hlt2]
        exact List.getElem_mem hlt2
      · exact ih (leftIdx - 1) (by omega) b hb2
    · rw [if_neg (by omega : ¬ (leftIdx > 0 ∨ (all.length : Int) < (all.length : Int)))] at hb
      simp at hb

/-- C9: when no ready buffer matches the requested reference timestamp,
`RawBufferManager::save` falls back to the newest ready buffer (the last
arrival) as the reference frame, and the reference frame itself is not part of
the packaged selection. -/
theorem save_fallback_reference (s : PoolState) (refTs : Int) (numSaveBuffers : Nat)
    (hne : s.ready ≠ [])
    (hnodup : s.ready.Nodup)
    (hnomatch : ∀ b ∈ s.ready, b.metadata.timestampNs ≠ refTs)
    (hbound : ∀ b ∈ s.ready, ∀ c ∈ s.ready,
      ((b.metadata.timestampNs - c.metadata.timestampNs).natAbs : Int) < int64Max) :
    findReferenceIdx s.ready refTs = s.ready.length - 1 ∧
    s.ready.getD (s.ready.length - 1) default ∉ (save s refTs numSaveBuffers).1 := by
  have hidx : s.ready.findIdx? (fun b => b.metadata.timestampNs == refTs) = none := by
    simp only [List.findIdx?_eq_none_iff]
    intro x hx
    simpa using hnomatch x hx
  have hL : 0 < s.ready.length := List.length_pos.mpr hne
  refine ⟨by simp [findReferenceIdx, hidx], fun hmem => ?_⟩
  rw [save, if_neg (by simpa [List.isEmpty_iff] using hne)] at hmem
  simp only [savePackagedBuffers, findReferenceIdx, hidx, List.nil_append] at hmem
  have hc1 : ((s.ready.length - 1 : Nat) : Int) + 1 = (s.ready.length : Int) := by omega
  have hc2 : ((s.ready.length - 1 : Nat) : Int) - 1 ≤ (s.ready.length : Int) - 2 := by omega
  rw [hc1] at hmem
  have hdl := saveSelectLoop_fallback_subset s.ready hbound numSaveBuffers
    (((s.ready.length - 1 : Nat) : Int) - 1) hc2 _ hmem
  obtain ⟨j, hj, hget⟩ := List.mem_iff_getElem.mp hdl
  have hjlt : j < s.ready.length := by
    have := s.ready.dropLast_sublist.length_le
    omega
  rw [List.getElem_dropLast s.ready j hj,
    List.getD_eq_getElem s.ready default (by omega : s.ready.length - 1 < s.ready.length)]
    at hget
  have hj2 : j = s.ready.length - 1 := (List.Nodup.getElem_inj_iff hnodup).mp hget
  rw [List.length_dropLast] at hj
  omega

theorem save_fallback_reference_witness :
    (demoPoolState.ready ≠ [] ∧ demoPoolState.ready.Nodup ∧
      (∀ b ∈ demoPoolState.ready, b.metadata.timestampNs ≠ 50) ∧
      (∀ b ∈ demoPoolState.ready, ∀ c ∈ demoPoolState.ready,
        ((b.metadata.timestampNs - c.metadata.timestampNs).natAbs : Int) < int64Max)) ∧
    (findReferenceIdx demoPoolState.ready 50 = demoPoolState.ready.length - 1 ∧
      demoPoolState.ready.getD (demoPoolState.ready.length - 1) default ∉
        (save demoPoolState 50 3).1) :=
  ⟨⟨by decide, by decide, by decide, by decide⟩,
    save_fallback_reference demoPoolState 50 3 (by decide) (by decide) (by decide) (by decide)⟩

/-- Ready partition for the closest-neighbour counterexample: timestamps 10,
20 and 21 in arrival order, with 20 as the requested reference. -/
def demoClosestPool : PoolState :=
  { unused := []
    ready := [⟨1, ⟨10, RawType.ZSL⟩⟩, ⟨2, ⟨20, RawType.ZSL⟩⟩, ⟨3, ⟨21, RawType.ZSL⟩⟩] }

/-- C6: `RawBufferManager::save` does not pick the closest neighbour by
timestamp difference.  With ready timestamps 10, 20, 21, reference 20 and one
extra buffer requested, the packaged set is the reference plus the buffer at
timestamp 10, even though the buffer at timestamp 21 is strictly closer to the
reference: the comparison against the right-hand neighbour reads the size of
the already-cleared ready vector, so the right distance is never taken. -/
theorem save_ignores_closer_right_neighbor :
    (save demoClosestPool 20 1).1 =
      [⟨2, ⟨20, RawType.ZSL⟩⟩, ⟨1, ⟨10, RawType.ZSL⟩⟩] ∧
    (⟨3, ⟨21, RawType.ZSL⟩⟩ : RawImageBuffer) ∉ (save demoClosestPool 20 1).1 ∧
    (((21 : Int) - 20).natAbs : Int) < (((10 : Int) - 20).natAbs : Int) := by
  refine ⟨by decide, by decide, by decide⟩

/-! ## HDR capture submission (CameraSession::captureHdr / doCaptureHdr) -/

/-- Identity of the two pre-built HDR capture requests:
`hdrCaptureRequests[0]` (base exposure) and `hdrCaptureRequests[1]` (the
under-exposed alternate).  The source list holds pointers to these two request
objects, so identity rather than request contents is what the submitted list
carries. -/
inductive HdrRequestKind where
  | base
  | underexposed
deriving DecidableEq, Repr

/-- The request list built by `CameraSession::doCaptureHdr` after `numImages`
has already been incremented: `numImages` references to request #0, with the
entry at `numImages/2` overwritten by request #1. -/
def hdrCaptureRequestList (numImages : Nat) : List HdrRequestKind :=
  (List.replicate numImages HdrRequestKind.base).set (numImages / 2) HdrRequestKind.underexposed

/-- `CameraSession::doCaptureHdr`: reject `numImages < 1` with an error log
and no further effect; otherwise increment `numImages`, record the new value
in `mRequestedHdrCaptures` and submit the interleaved request list. -/
def doCaptureHdr (numImages : Int) : Option (Nat × List HdrRequestKind) :=
  if numImages < 1 then none
  else some (numImages.toNat + 1, hdrCaptureRequestList (numImages.toNat + 1))

theorem hdrCaptureRequestList_length (n : Nat) : (hdrCaptureRequestList n).length = n := by
  simp [hdrCaptureRequestList]

theorem hdrCaptureRequestList_getElem (n : Nat) (hn : 1 ≤ n) (i : Nat) (hi : i < n) :
    (hdrCaptureRequestList n)[i]? =
      some (if i = n / 2 then HdrRequestKind.underexposed else HdrRequestKind.base) := by
  have hlt : n / 2 < n := Nat.div_lt_self (by omega) (by omega)
  rw [hdrCaptureRequestList, List.getElem?_set, List.getElem?_replicate]
  by_cases hcase : i = n / 2
  · simp [hcase, hlt]
  · simp [hi, Ne.symm hcase, if_neg hcase]

theorem filter_replicate_ne {α : Type} [DecidableEq α] (n : Nat) (a b : α) (h : a ≠ b) :
    (List.replicate n a).filter (fun r => decide (r = b)) = [] := by
  induction n with
  | zero => simp
  | succ k ih => simp [List.replicate_succ, List.filter_cons, h, ih]

theorem hdrCaptureRequestList_one_underexposed (n : Nat) (hn : 1 ≤ n) :
    ((hdrCaptureRequestList n).filter
      (fun r => decide (r = HdrRequestKind.underexposed))).length = 1 := by
  have hlt : n / 2 < n := Nat.div_lt_self (by omega) (by omega)
  rw [hdrCaptureRequestList,
    List.set_eq_take_cons_drop HdrRequestKind.underexposed (by simpa using hlt),
    List.take_replicate, List.drop_replicate, List.filter_append, List.filter_cons,
    filter_replicate_ne _ _ _ (by decide), filter_replicate_ne _ _ _ (by decide)]
  simp

/-- C1 (amended): a valid HDR capture request with N >= 1 frames submits
N+1 requests: every position references the base-exposure request except
exactly one, and the single alternate-exposure request sits at index
(N+1)/2.  `mRequestedHdrCaptures` is also set to N+1. -/
theorem hdr_request_list_spec (numImages : Int) (h : 1 ≤ numImages) :
    doCaptureHdr numImages =
      some (numImages.toNat + 1, hdrCaptureRequestList (numImages.toNat + 1)) ∧
    (hdrCaptureRequestList (numImages.toNat + 1)).length = numImages.toNat + 1 ∧
    (∀ i : Nat, i < numImages.toNat + 1 →
      (hdrCaptureRequestList (numImages.toNat + 1))[i]? =
        some (if i = (numImages.toNat + 1) / 2 then HdrRequestKind.underexposed
          else HdrRequestKind.base)) ∧
    ((hdrCaptureRequestList (numImages.toNat + 1)).filter
      (fun r => decide (r = HdrRequestKind.underexposed))).length = 1 := by
  refine ⟨?_, hdrCaptureRequestList_length _,
    fun i hi => hdrCaptureRequestList_getElem _ (by omega) i hi,
    hdrCaptureRequestList_one_underexposed _ (by omega)⟩
  rw [doCaptureHdr, if_neg (by omega)]

theorem hdr_request_list_spec_witness :
    (1 : Int) ≤ 4 ∧
    (doCaptureHdr 4 = some ((4 : Int).toNat + 1, hdrCaptureRequestList ((4 : Int).toNat + 1)) ∧
      (hdrCaptureRequestList ((4 : Int).toNat + 1)).length = (4 : Int).toNat + 1 ∧
      (∀ i : Nat, i < (4 : Int).toNat + 1 →
        (hdrCaptureRequestList ((4 : Int).toNat + 1))[i]? =
          some (if i = ((4 : Int).toNat + 1) / 2 then HdrRequestKind.underexposed
            else HdrRequestKind.base)) ∧
      ((hdrCaptureRequestList ((4 : Int).toNat + 1)).filter
        (fun r => decide (r = HdrRequestKind.underexposed))).length = 1) :=
  ⟨by decide, hdr_request_list_spec 4 (by decide)⟩

/-- C1 counterexample: for N = 1 the submitted list is
[base, underexposed], so the alternate sits at index 1 = (N+1)/2 while the
claimed position N/2 = 0 holds the base request. -/
theorem hdr_alternate_not_at_half_n :
    doCaptureHdr 1 = some (2, [HdrRequestKind.base, HdrRequestKind.underexposed]) ∧
    (hdrCaptureRequestList 2)[(1 : Nat) / 2]? = some HdrRequestKind.base := by
  exact ⟨by decide, by decide⟩

/-! ## captureHdr entry point (C7) -/

/-- HDR-related controller fields mutated by the `captureHdr` entry point:
`mHdrCaptureInProgress`, `mHdrCaptureSequenceCompleted` and
`mHdrCaptureOutputPath`. -/
structure HdrApiState where
  hdrCaptureInProgress : Bool
  hdrCaptureSequenceCompleted : Bool
  hdrCaptureOutputPath : String
deriving DecidableEq, Repr

/-- Events posted to the controller event loop that this development
models. -/
inductive PushedEvent where
  | actionCaptureHdr (numImages baseIso : Int) (baseExposure : Int) (hdrIso : Int)
      (hdrExposure : Int)
  | actionCloseCamera
  | eventCameraError (error : Int)
deriving DecidableEq, Repr

/-- `CameraSession::captureHdr` (public entry point): if an HDR capture is
already in progress the request is ignored with a warning; otherwise the
sequence-completed flag is cleared, the in-progress flag is set, the output
path is stored, and an ACTION_CAPTURE_HDR event is posted — all before
`numImages` is ever validated. -/
def captureHdr (st : HdrApiState) (numImages baseIso : Int) (baseExposure : Int)
    (hdrIso : Int) (hdrExposure : Int) (outputPath : String) :
    HdrApiState × List PushedEvent :=
  if st.hdrCaptureInProgress then (st, [])
  else
    ({ st with
        hdrCaptureSequenceCompleted := false
        hdrCaptureInProgress := true
        hdrCaptureOutputPath := outputPath },
     [PushedEvent.actionCaptureHdr numImages baseIso baseExposure hdrIso hdrExposure])

/-- Controller HDR state before any capture: idle, no completed sequence. -/
def idleHdrApiState : HdrApiState :=
  { hdrCaptureInProgress := false
    hdrCaptureSequenceCompleted := false
    hdrCaptureOutputPath := "" }

/-- C7 counterexample: a `captureHdr` request with N = 0 from the idle state
still sets the in-progress flag and posts a CAPTURE_HDR event, contradicting
the claim that nothing is emitted and no state changes. -/
theorem captureHdr_zero_not_rejected :
    (captureHdr idleHdrApiState 0 100 10000000 50 2500000 "out").1.hdrCaptureInProgress = true ∧
    (captureHdr idleHdrApiState 0 100 10000000 50 2500000 "out").2 =
      [PushedEvent.actionCaptureHdr 0 100 10000000 50 2500000] := by
  exact ⟨rfl, rfl⟩

/-- C7 (amended): a `captureHdr` request with N < 1 issued while no HDR
capture is in progress still sets the in-progress flag and posts the
CAPTURE_HDR event; only when that event is processed does `doCaptureHdr`
reject the invalid count with an error log, submitting nothing and leaving
the in-progress flag set. -/
theorem captureHdr_invalid_count (st : HdrApiState)
    (numImages baseIso baseExposure hdrIso hdrExposure : Int) (outputPath : String)
    (hidle : st.hdrCaptureInProgress = false) (hn : numImages < 1) :
    (captureHdr st numImages baseIso baseExposure hdrIso hdrExposure
      outputPath).1.hdrCaptureInProgress = true ∧
    (captureHdr st numImages baseIso baseExposure hdrIso hdrExposure outputPath).2 =
      [PushedEvent.actionCaptureHdr numImages baseIso baseExposure hdrIso hdrExposure] ∧
    doCaptureHdr numImages = none := by
  rw [captureHdr]
  simp [hidle, doCaptureHdr, hn]

theorem captureHdr_invalid_count_witness :
    (idleHdrApiState.hdrCaptureInProgress = false ∧ (0 : Int) < 1) ∧
    ((captureHdr idleHdrApiState 0 100 10000000 50 2500000
        "out").1.hdrCaptureInProgress = true ∧
      (captureHdr idleHdrApiState 0 100 10000000 50 2500000 "out").2 =
        [PushedEvent.actionCaptureHdr 0 100 10000000 50 2500000] ∧
      doCaptureHdr 0 = none) :=
  ⟨⟨rfl, by decide⟩,
    captureHdr_invalid_count idleHdrApiState 0 100 10000000 50 2500000 "out" rfl (by decide)⟩

/-! ## SAVE_HDR_DATA processing (C2) -/

/-- Listener callbacks fired by the controller handlers modelled here. -/
inductive ListenerCallback where
  | onCameraHdrImageCaptureFailed
  | onCameraHdrImageCaptureProgress (percent : ℚ)
  | onCameraHdrImageCaptureCompleted
  | onCameraError (error : Int)
deriving DecidableEq

/-- HDR-job fields read and written by `doAttemptSaveHdrData`:
`mHdrCaptureInProgress`, `mHdrCaptureSequenceCompleted`,
`mHdrSequenceCompletedTimePoint` (steady clock, in milliseconds) and
`mRequestedHdrCaptures`. -/
structure HdrJobState where
  hdrCaptureInProgress : Bool
  hdrCaptureSequenceCompleted : Bool
  hdrSequenceCompletedTimePoint : ℚ
  requestedHdrCaptures : Nat
deriving DecidableEq

/-- `CameraSession::doAttemptSaveHdrData` (handler for EVENT_SAVE_HDR_DATA);
`now` is the current steady-clock instant in milliseconds.  If the sequence
completed more than 5000 ms ago the job fails and resets; otherwise with
fewer HDR buffers than requested a progress callback fires and nothing else
changes; otherwise progress(100) fires, `RawBufferManager::saveHdr` drains
the HDR buffers, and the completed callback fires with the job reset. -/
def doAttemptSaveHdrData (st : HdrJobState) (now : ℚ) (pool : PoolState) :
    HdrJobState × PoolState × List ListenerCallback :=
  if st.hdrCaptureSequenceCompleted = true ∧
      now - st.hdrSequenceCompletedTimePoint > 5000 then
    ({ st with hdrCaptureInProgress := false, hdrCaptureSequenceCompleted := false },
     pool, [ListenerCallback.onCameraHdrImageCaptureFailed])
  else if numHdrBuffers pool < st.requestedHdrCaptures then
    (st, pool,
     [ListenerCallback.onCameraHdrImageCaptureProgress
        ((numHdrBuffers pool : ℚ) / (st.requestedHdrCaptures : ℚ) * 100)])
  else
    ({ st with hdrCaptureInProgress := false }, saveHdr pool,
     [ListenerCallback.onCameraHdrImageCaptureProgress 100,
      ListenerCallback.onCameraHdrImageCaptureCompleted])

/-- C2: processing SAVE_HDR_DATA with want = requested capture count and
have = the pool's HDR-tagged ready count: on timeout after sequence
completion the failed callback fires and the job resets; else with
have < want only a progress callback with have/want*100 fires and nothing
changes; else progress(100) fires, every HDR-tagged ready buffer is drained
out of the ready partition, and the completed callback fires with the job
reset. -/
theorem attempt_save_hdr_spec (st : HdrJobState) (now : ℚ) (pool : PoolState) :
    (st.hdrCaptureSequenceCompleted = true →
      now - st.hdrSequenceCompletedTimePoint > 5000 →
      doAttemptSaveHdrData st now pool =
        ({ st with hdrCaptureInProgress := false, hdrCaptureSequenceCompleted := false },
         pool, [ListenerCallback.onCameraHdrImageCaptureFailed])) ∧
    (¬ (st.hdrCaptureSequenceCompleted = true ∧
        now - st.hdrSequenceCompletedTimePoint > 5000) →
      numHdrBuffers pool < st.requestedHdrCaptures →
      doAttemptSaveHdrData st now pool =
        (st, pool,
         [ListenerCallback.onCameraHdrImageCaptureProgress
            ((numHdrBuffers pool : ℚ) / (st.requestedHdrCaptures : ℚ) * 100)])) ∧
    (¬ (st.hdrCaptureSequenceCompleted = true ∧
        now - st.hdrSequenceCompletedTimePoint > 5000) →
      st.requestedHdrCaptures ≤ numHdrBuffers pool →
      doAttemptSaveHdrData st now pool =
        ({ st with hdrCaptureInProgress := false }, saveHdr pool,
         [ListenerCallback.onCameraHdrImageCaptureProgress 100,
          ListenerCallback.onCameraHdrImageCaptureCompleted]) ∧
      numHdrBuffers (saveHdr pool) = 0 ∧
      (saveHdr pool).unused = pool.unused ++ pool.ready.filter isHdrBuffer) := by
  refine ⟨fun h1 h2 => ?_, fun hno hlt => ?_, fun hno hge => ⟨?_, ?_, rfl⟩⟩
  · rw [doAttemptSaveHdrData, if_pos ⟨h1, h2⟩]
  · rw [doAttemptSaveHdrData, if_neg hno, if_pos hlt]
  · rw [doAttemptSaveHdrData, if_neg hno, if_neg (by omega)]
  · simp [numHdrBuffers, saveHdr, List.filter_filter]

/-- HDR job used by the C2 witness: sequence completed at t = 100 ms. -/
def demoTimeoutJob : HdrJobState :=
  { hdrCaptureInProgress := true
    hdrCaptureSequenceCompleted := true
    hdrSequenceCompletedTimePoint := 100
    requestedHdrCaptures := 5 }

theorem attempt_save_hdr_spec_witness :
    (demoTimeoutJob.hdrCaptureSequenceCompleted = true ∧
      (6000 : ℚ) - demoTimeoutJob.hdrSequenceCompletedTimePoint > 5000) ∧
    doAttemptSaveHdrData demoTimeoutJob 6000 demoPoolState =
      ({ demoTimeoutJob with
          hdrCaptureInProgress := false, hdrCaptureSequenceCompleted := false },
       demoPoolState, [ListenerCallback.onCameraHdrImageCaptureFailed]) :=
  ⟨⟨rfl, by norm_num [demoTimeoutJob]⟩,
    (attempt_save_hdr_spec demoTimeoutJob 6000 demoPoolState).1 rfl
      (by norm_num [demoTimeoutJob])⟩

/-! ## OPEN event payload (C3) -/

/-- Json values as used by event payloads (json11): only null and objects
with boolean fields are needed here.  `bool_value()` of a non-bool json value
(in particular of the null default) returns `false`. -/
inductive JsonVal where
  | null
  | boolObj (fields : List (String × Bool))
deriving DecidableEq, Repr

def JsonVal.boolValue : JsonVal → String → Bool
  | .null, _ => false
  | .boolObj fields, key =>
    match fields.lookup key with
    | some b => b
    | none => false

/-- Payload attached to the ACTION_OPEN_CAMERA event by
`CameraSession::openCamera`: the function builds a json object holding
`setupForRawPreview`, but then calls the `pushEvent` overload that takes no
payload, so the event is queued with the default null json and the built
object is dropped. -/
def openCameraPushedData (_setupForRawPreview : Bool) : JsonVal :=
  JsonVal.null

/-- Decoding of ACTION_OPEN_CAMERA in `doProcessEvent`:
`data["setupForRawPreview"].bool_value()`. -/
def processOpenEventFlag (data : JsonVal) : Bool :=
  data.boolValue "setupForRawPreview"

/-- `CameraSession::setupPreviewCaptureOutput`: the preview surface is added
as a target of the repeating request exactly when the decoded
`setupForRawPreview` is false. -/
def setupPreviewAddsTarget (setupForRawPreview : Bool) : Bool :=
  !setupForRawPreview

/-- Whether an `openCamera(..., setupForRawPreview)` call ends with the
preview surface added as a target of the repeating request, going through the
queued event payload. -/
def openCameraAddsPreviewTarget (setupForRawPreview : Bool) : Bool :=
  setupPreviewAddsTarget (processOpenEventFlag (openCameraPushedData setupForRawPreview))

/-- C3 (code bug): `openCamera` queues the OPEN event with a null payload, so
the handler decodes `setupForRawPreview` as false and adds the preview
surface as a target even when the caller passed true; had the flag been
carried, a true value would have suppressed the target. -/
theorem open_event_drops_raw_preview_flag :
    openCameraPushedData true = JsonVal.null ∧
    processOpenEventFlag (openCameraPushedData true) = false ∧
    openCameraAddsPreviewTarget true = true ∧
    setupPreviewAddsTarget true = false := by
  exact ⟨rfl, rfl, rfl, rfl⟩

/-! ## Device-error event (C4) -/

/-- `CameraSession::onCameraError` (adapter callback thread): queue an
EVENT_CAMERA_ERROR event carrying the error code. -/
def onCameraError (error : Int) : List PushedEvent :=
  [PushedEvent.eventCameraError error]

/-- `CameraSession::doOnCameraError` (event-loop handler for
EVENT_CAMERA_ERROR): log and fire the listener's `onCameraError`; the handler
posts no further events. -/
def doOnCameraError (error : Int) : List ListenerCallback × List PushedEvent :=
  ([ListenerCallback.onCameraError error], [])

/-- C4 counterexample: processing a device-error event with code 2 fires only
the listener error callback; no ACTION_CLOSE_CAMERA event is posted, so the
error path does not trigger a CLOSE. -/
theorem camera_error_does_not_close :
    doOnCameraError 2 = ([ListenerCallback.onCameraError 2], []) ∧
    PushedEvent.actionCloseCamera ∉ (doOnCameraError 2).2 := by
  exact ⟨rfl, by decide⟩

/-- C4 (amended): a device-error callback queues EVENT_CAMERA_ERROR with the
code, and processing it fires the listener's `onCameraError` with that code
and nothing else — in particular no CLOSE event is posted by the error
path. -/
theorem camera_error_fires_listener_only (error : Int) :
    onCameraError error = [PushedEvent.eventCameraError error] ∧
    doOnCameraError error = ([ListenerCallback.onCameraError error], []) ∧
    (doOnCameraError error).2 = [] :=
  ⟨rfl, rfl, rfl⟩

/-! ## Repeating-request configuration (C8)

Values of the ACAMERA enums used by `createCaptureRequest` and the
exposure handlers. -/

def CAPTURE_INTENT_ZERO_SHUTTER_LAG : Nat := 5
def CONTROL_MODE_AUTO : Nat := 1
def SHADING_MODE_FAST : Nat := 1
def STATISTICS_LENS_SHADING_MAP_MODE_ON : Nat := 1
def LENS_SHADING_APPLIED_FALSE : Nat := 0
def AE_ANTIBANDING_MODE_AUTO : Nat := 3
def NOISE_REDUCTION_MODE_FAST : Nat := 1
def COLOR_CORRECTION_MODE_HIGH_QUALITY : Nat := 2
def OPTICAL_STABILIZATION_MODE_ON : Nat := 1
def AE_MODE_OFF : Nat := 0
def AE_MODE_ON : Nat := 1
def AF_MODE_CONTINUOUS_PICTURE : Nat := 4
def AWB_MODE_AUTO : Nat := 1
def AF_TRIGGER_IDLE : Nat := 0
def AE_PRECAPTURE_TRIGGER_IDLE : Nat := 0

/-- The entries of an `ACaptureRequest` touched by the controller.  A `none`
entry stands for an entry cleared with count 0 (or never set relative to the
modelled tags); template defaults of the tracked tags are carried by the
template value passed to `createCaptureRequest`. -/
structure CaptureRequestConfig where
  captureIntent : Nat
  controlMode : Nat
  shadingMode : Nat
  lensShadingMapStatsMode : Nat
  lensShadingApplied : Nat
  antiBandingMode : Nat
  noiseReductionMode : Nat
  colorCorrectionMode : Nat
  oisMode : Option Nat
  aeMode : Option Nat
  afMode : Option Nat
  awbMode : Option Nat
  aePrecaptureTrigger : Option Nat
  afTrigger : Option Nat
  aeExposureCompensation : Option Int
  sensorSensitivity : Option Int
  sensorExposureTime : Option Int
  afRegions : Option (List Int)
  aeRegions : Option (List Int)
deriving DecidableEq, Repr

/-- `CameraSession::createCaptureRequest`: fixed template parameters, OIS when
the device advertises the ON mode, initial AE on / AF continuous-picture /
AWB auto, and idle triggers.  (A `tonemapMode` constant is declared in the
source but never written to the request, so no tonemap entry is set.) -/
def createCaptureRequest (t : CaptureRequestConfig) (hasOisOn : Bool) : CaptureRequestConfig :=
  { t with
      captureIntent := CAPTURE_INTENT_ZERO_SHUTTER_LAG
      controlMode := CONTROL_MODE_AUTO
      shadingMode := SHADING_MODE_FAST
      lensShadingMapStatsMode := STATISTICS_LENS_SHADING_MAP_MODE_ON
      lensShadingApplied := LENS_SHADING_APPLIED_FALSE
      antiBandingMode := AE_ANTIBANDING_MODE_AUTO
      noiseReductionMode := NOISE_REDUCTION_MODE_FAST
      colorCorrectionMode := COLOR_CORRECTION_MODE_HIGH_QUALITY
      oisMode := if hasOisOn then some OPTICAL_STABILIZATION_MODE_ON else t.oisMode
      aeMode := some AE_MODE_ON
      afMode := some AF_MODE_CONTINUOUS_PICTURE
      awbMode := some AWB_MODE_AUTO
      aePrecaptureTrigger := some AE_PRECAPTURE_TRIGGER_IDLE
      afTrigger := some AF_TRIGGER_IDLE }

/-- The AUTO branch of `CameraSession::doRepeatCapture`: AE on, AF
continuous-picture, exposure compensation applied, and ISO / exposure time /
AF trigger / AF regions / AE regions cleared (count 0). -/
def applyAutoRepeatRequest (cfg : CaptureRequestConfig)
    (exposureCompensation : Int) : CaptureRequestConfig :=
  { cfg with
      aeMode := some AE_MODE_ON
      afMode := some AF_MODE_CONTINUOUS_PICTURE
      aeExposureCompensation := some exposureCompensation
      sensorSensitivity := none
      sensorExposureTime := none
      afTrigger := none
      afRegions := none
      aeRegions := none }

/-- The MANUAL branch of `CameraSession::doRepeatCapture`: AE off, user ISO
and exposure time, exposure compensation cleared (count 0). -/
def applyManualRepeatRequest (cfg : CaptureRequestConfig)
    (userIso userExposureTime : Int) : CaptureRequestConfig :=
  { cfg with
      aeMode := some AE_MODE_OFF
      sensorSensitivity := some userIso
      sensorExposureTime := some userExposureTime
      aeExposureCompensation := none }

/-- `CameraCaptureSessionState` of the source. -/
inductive CameraCaptureSessionState where
  | CLOSED
  | READY
  | ACTIVE
deriving DecidableEq, Repr

/-- `CameraMode` of the source. -/
inductive CameraMode where
  | AUTO
  | MANUAL
deriving DecidableEq, Repr

/-- The controller fields involved in the exposure handlers: `mState`,
`mMode`, `mExposureCompensation`, `mUserIso`, `mUserExposureTime` and the
repeating request. -/
structure ControllerState where
  state : CameraCaptureSessionState
  mode : CameraMode
  exposureCompensation : Int
  userIso : Int
  userExposureTime : Int
  repeatRequest : CaptureRequestConfig
deriving DecidableEq, Repr

/-- `CameraSession::doRepeatCapture`: rewrite the repeating request according
to the current mode and cached values, then re-issue it. -/
def doRepeatCapture (s : ControllerState) : ControllerState :=
  match s.mode with
  | CameraMode.AUTO =>
    { s with repeatRequest := applyAutoRepeatRequest s.repeatRequest s.exposureCompensation }
  | CameraMode.MANUAL =>
    { s with repeatRequest :=
        applyManualRepeatRequest s.repeatRequest s.userIso s.userExposureTime }

/-- `CameraSession::doSetAutoExposure`: only in ACTIVE; set AUTO mode, zero
the exposure compensation and rebuild the repeating request. -/
def doSetAutoExposure (s : ControllerState) : ControllerState :=
  if s.state = CameraCaptureSessionState.ACTIVE then
    doRepeatCapture { s with mode := CameraMode.AUTO, exposureCompensation := 0 }
  else s

/-- `CameraSession::doSetManualExposure`: only in ACTIVE; set MANUAL mode,
zero the exposure compensation, store the user ISO and exposure time and
rebuild the repeating request. -/
def doSetManualExposure (s : ControllerState) (iso exposureTime : Int) : ControllerState :=
  if s.state = CameraCaptureSessionState.ACTIVE then
    doRepeatCapture
      { s with
          mode := CameraMode.MANUAL
          exposureCompensation := 0
          userIso := iso
          userExposureTime := exposureTime }
  else s

/-- C8: starting from the repeating-request configuration established at open
(the AUTO rebuild of the freshly created request, with whatever exposure
compensation was cached), processing setAutoExposure, then
setManualExposure(iso, e), then setAutoExposure again in the ACTIVE state
leaves the repeating request with the same entries as after open, except that
the exposure compensation entry is 0. -/
theorem auto_manual_auto_roundtrip (t : CaptureRequestConfig) (hasOisOn : Bool)
    (s : ControllerState) (iso exposureTime : Int)
    (hactive : s.state = CameraCaptureSessionState.ACTIVE)
    (hreq : s.repeatRequest =
      applyAutoRepeatRequest (createCaptureRequest t hasOisOn) s.exposureCompensation) :
    (doSetAutoExposure
      (doSetManualExposure (doSetAutoExposure s) iso exposureTime)).repeatRequest =
      { s.repeatRequest with aeExposureCompensation := some 0 } := by
  simp [doSetAutoExposure, doSetManualExposure, doRepeatCapture, hactive, hreq,
    applyAutoRepeatRequest, applyManualRepeatRequest]

/-- Concrete template configuration used by the witnesses. -/
def sampleTemplateConfig : CaptureRequestConfig :=
  { captureIntent := 0
    controlMode := 0
    shadingMode := 0
    lensShadingMapStatsMode := 0
    lensShadingApplied := 0
    antiBandingMode := 0
    noiseReductionMode := 0
    colorCorrectionMode := 0
    oisMode := none
    aeMode := none
    afMode := none
    awbMode := none
    aePrecaptureTrigger := none
    afTrigger := none
    aeExposureCompensation := none
    sensorSensitivity := none
    sensorExposureTime := none
    afRegions := none
    aeRegions := none }

/-- Concrete controller state just after open, used by the witnesses. -/
def sampleOpenState : ControllerState :=
  { state := CameraCaptureSessionState.ACTIVE
    mode := CameraMode.AUTO
    exposureCompensation := 3
    userIso := 100
    userExposureTime := 10000000
    repeatRequest := applyAutoRepeatRequest (createCaptureRequest sampleTemplateConfig true) 3 }

theorem auto_manual_auto_roundtrip_witness :
    (sampleOpenState.state = CameraCaptureSessionState.ACTIVE ∧
      sampleOpenState.repeatRequest =
        applyAutoRepeatRequest (createCaptureRequest sampleTemplateConfig true)
          sampleOpenState.exposureCompensation) ∧
    (doSetAutoExposure
      (doSetManualExposure (doSetAutoExposure sampleOpenState) 800 20000000)).repeatRequest =
      { sampleOpenState.repeatRequest with aeExposureCompensation := some 0 } :=
  ⟨⟨rfl, rfl⟩,
    auto_manual_auto_roundtrip sampleTemplateConfig true sampleOpenState 800 20000000 rfl rfl⟩

/-! ## Exposure compensation (C10) -/

/-- `std::min(1.0f, std::max(0.0f, value))`. -/
def clampZeroOne (value : ℚ) : ℚ := min 1 (max 0 value)

/-- `static_cast<int>` of a real-valued expression: truncation toward zero.
On a rational this is the truncated quotient of numerator by denominator. -/
def cppTruncToInt (q : ℚ) : Int := q.num.tdiv q.den

/-- The device's ACAMERA_CONTROL_AE_COMPENSATION_RANGE
(`exposureCompensationRange[0]`, `exposureCompensationRange[1]`). -/
structure ExposureCompensationRange where
  lo : Int
  hi : Int
deriving DecidableEq, Repr

/-- The integer device compensation value computed by
`doSetExposureCompensation`: clamp the normalized input to [0,1], scale by
the device range width, shift by the range minimum, truncate to int. -/
def mapExposureCompensation (d : ExposureCompensationRange) (value : ℚ) : Int :=
  cppTruncToInt (clampZeroOne value * ((d.hi : ℚ) - (d.lo : ℚ)) + (d.lo : ℚ))

/-- `CameraSession::doSetExposureCompensation`: return unchanged when the
mapped integer equals the current `mExposureCompensation`; otherwise store it
and rebuild/re-issue the repeating request.  The boolean reports whether the
repeating request was re-issued. -/
def doSetExposureCompensation (d : ExposureCompensationRange) (s : ControllerState)
    (value : ℚ) : ControllerState × Bool :=
  if s.exposureCompensation = mapExposureCompensation d value then (s, false)
  else (doRepeatCapture { s with exposureCompensation := mapExposureCompensation d value }, true)

theorem doRepeatCapture_exposureCompensation (s : ControllerState) :
    (doRepeatCapture s).exposureCompensation = s.exposureCompensation := by
  rw [doRepeatCapture]
  cases s.mode <;> rfl

/-- C10: a setExposureCompensation input whose clamped value maps to the same
integer device compensation as the one currently applied changes no
controller state and does not re-issue the repeating request; when the mapped
integer differs, the compensation is stored and the repeating request is
rebuilt. -/
theorem set_exposure_compensation_noop (d : ExposureCompensationRange)
    (s : ControllerState) (value : ℚ) :
    (mapExposureCompensation d value = s.exposureCompensation →
      doSetExposureCompensation d s value = (s, false)) ∧
    (mapExposureCompensation d value ≠ s.exposureCompensation →
      (doSetExposureCompensation d s value).2 = true ∧
      (doSetExposureCompensation d s value).1.exposureCompensation =
        mapExposureCompensation d value) := by
  constructor
  · intro heq
    rw [doSetExposureCompensation, if_pos heq.symm]
  · intro hne
    rw [doSetExposureCompensation,
      if_neg (fun h : s.exposureCompensation = mapExposureCompensation d value => hne h.symm)]
    exact ⟨rfl, doRepeatCapture_exposureCompensation _⟩

/-- Controller state with a zero stored compensation, for the C10 witness. -/
def sampleZeroCompState : ControllerState :=
  { sampleOpenState with exposureCompensation := 0 }

/-- Compensation range [-12, 12], for the C10 witness. -/
def sampleCompRange : ExposureCompensationRange := { lo := -12, hi := 12 }

theorem set_exposure_compensation_noop_witness :
    mapExposureCompensation sampleCompRange (1 / 2) =
      sampleZeroCompState.exposureCompensation ∧
    doSetExposureCompensation sampleCompRange sampleZeroCompState (1 / 2) =
      (sampleZeroCompState, false) := by
  have hmap : mapExposureCompensation sampleCompRange (1 / 2) =
      sampleZeroCompState.exposureCompensation := by
    show cppTruncToInt (clampZeroOne (1 / 2) * (((12 : Int) : ℚ) - ((-12 : Int) : ℚ)) +
      ((-12 : Int) : ℚ)) = 0
    norm_num [clampZeroOne, cppTruncToInt]
  exact ⟨hmap,
    (set_exposure_compensation_noop sampleCompRange sampleZeroCompState (1 / 2)).1 hmap⟩

end MotionCam
